import Mathlib

/-!
Verification of the transport client of `mikiSpoko200/computer-networks`
(`src/transport`): shallow embedding of the sliding-window downloader,
its message codec and its readiness registry, together with theorems
settling the frozen claims about the natural-language specification.

Machine bytes are modelled as `Nat` (every byte value is `< 256`; none of
the operations modelled here overflow or depend on wrap-around).  `usize`
arithmetic is modelled as `Nat`; the only subtractions performed by the
source are guarded so truncated subtraction agrees with the machine.
Fallible code (Rust panics / `fail_with_message`, which calls
`process::exit(1)`) is modelled with `Except`: an `.error` value means the
process terminates.
-/

set_option maxRecDepth 100000

namespace Transport

/-- `ByteRange` (`messages.rs`: `pub type ByteRange = Range<usize>`).
`stop` is Rust's `end` field (a Lean keyword). -/
structure ByteRange where
  start : Nat
  stop : Nat
deriving DecidableEq, Repr

/-- `Range::len` for `usize`: `end - start` (always called with `start ≤ end`). -/
def ByteRange.len (r : ByteRange) : Nat := r.stop - r.start

/-- `segment.rs`: `Status` (`downloader.rs`/`window.rs` call the two states
`Received`/`NotReceived` via `is_received`; the `segment.rs` in the tree names
them `Acknowledged`/`Unacknowledged`). -/
inductive Status where
  | unacknowledged
  | acknowledged
deriving DecidableEq, Repr

/-- `downloader.rs`: `SegmentByteRangeIter { base_byte_offset, file_size, seg_size }`. -/
structure SegmentByteRangeIter where
  base_byte_offset : Nat
  file_size : Nat
  seg_size : Nat
deriving DecidableEq, Repr

def SegmentByteRangeIter.new (file_size seg_size : Nat) : SegmentByteRangeIter :=
  { base_byte_offset := 0, file_size, seg_size }

/-- `Iterator::next` for `SegmentByteRangeIter` (`downloader.rs` lines 41-51):
yields `start..end` with `end - start = min seg_size (file_size - start)`,
advancing `base_byte_offset`, until `file_size` is exhausted. -/
def SegmentByteRangeIter.next (it : SegmentByteRangeIter) :
    Option (ByteRange × SegmentByteRangeIter) :=
  if it.base_byte_offset < it.file_size then
    let diff := it.file_size - it.base_byte_offset
    let start := it.base_byte_offset
    let stop := start + if diff < it.seg_size then diff else it.seg_size
    some (⟨start, stop⟩, { it with base_byte_offset := stop })
  else
    none

/-- `segment.rs`: `SegmentBuffer::MAX_SIZE = CONFIG_MAX_SIZE (19) + DATA_MAX_SIZE (500)`. -/
def SegmentBuffer.MAX_SIZE : Nat := 19 + 500

/-- `SegmentBuffer::default()`: a zeroed fixed array `[u8; 519]`. -/
def SegmentBuffer.default : List Nat := List.replicate SegmentBuffer.MAX_SIZE 0

/-- `segment.rs`: a `Segment` owns its byte range, a fixed 519-byte buffer
(`SegmentBuffer`), and a receipt status. -/
structure Segment where
  byte_range : ByteRange
  buffer : List Nat
  status : Status
deriving DecidableEq, Repr

def Segment.SIZE : Nat := 500

/-- `Segment::with_buffer(byte_range, buffer)`: status starts `Unacknowledged`. -/
def Segment.with_buffer (r : ByteRange) (buf : List Nat) : Segment :=
  { byte_range := r, buffer := buf, status := .unacknowledged }

/-- `Segment::new(byte_range)`: fresh zeroed buffer. -/
def Segment.new (r : ByteRange) : Segment :=
  Segment.with_buffer r SegmentBuffer.default

/-- The receipt predicate used by `window.rs` and `downloader.rs` (`is_received`);
the `segment.rs` in the tree spells it `is_acknowledged` over the same two-state
status. -/
def Segment.is_received (s : Segment) : Bool := s.status == .acknowledged

/-- `impl AsRef<[u8]> for Segment` (`segment.rs` lines 110-114): returns the
WHOLE fixed `[u8; 519]` backing array, `self.buffer.data.as_ref()`. -/
def Segment.as_ref (s : Segment) : List Nat := s.buffer

/-- Modelled from the spec: `downloader.rs` calls `segment.write_all(response.data())`
on a segment whose `Segment` type in the tree has no `Write` impl; spec §4.B
(`set_data`) says the payload is copied in, truncated to 500 bytes, and the
status becomes `Received`.  The copy lands at the head of the backing buffer and
the buffer keeps its fixed length. -/
def Segment.write_all (s : Segment) (d : List Nat) : Segment :=
  { s with
    buffer := d.take Segment.SIZE ++ s.buffer.drop (min d.length Segment.SIZE),
    status := .acknowledged }

/-- Modelled from the spec: `downloader.rs` increments `bytes_downloaded` by
`segment.len()`, absent from the `segment.rs` in the tree; spec §4.F step 3a
says the increment is `range.len`. -/
def Segment.len (s : Segment) : Nat := s.byte_range.len

/-- `window.rs`: `Window { queue, received_buffer, read_seg_count }`. -/
structure Window where
  queue : List Segment
  received_buffer : List Segment
  read_seg_count : Nat
deriving DecidableEq, Repr

def Window.SIZE : Nat := 1000

/-- Consume up to `n` ranges from the iterator, wrapping each in `Segment::new`
(`Window::new`: `queue.extend(ranges.map(Segment::new).take(SIZE))`). -/
def takeSegments : Nat → SegmentByteRangeIter → (List Segment × SegmentByteRangeIter)
  | 0, it => ([], it)
  | n + 1, it =>
    match it.next with
    | none => ([], it)
    | some (r, it') =>
      let (rest, it'') := takeSegments n it'
      (Segment.new r :: rest, it'')

/-- `Window::new` (`window.rs` lines 25-30): seed the queue with up to 1000
fresh segments; empty recycle pool; `read_seg_count = 0`.  The mutated iterator
is returned alongside (Rust mutates it in place). -/
def Window.new (it : SegmentByteRangeIter) : Window × SegmentByteRangeIter :=
  let (segs, it') := takeSegments Window.SIZE it
  ({ queue := segs, received_buffer := [], read_seg_count := 0 }, it')

/-- `Window::slide_len`: `queue.iter().take_while(is_received).count()`. -/
def Window.slide_len (w : Window) : Nat :=
  (w.queue.takeWhile Segment.is_received).length

/-- `Window::shrink` (`window.rs` lines 36-40):
`received_buffer.extend(queue.drain(0..slide_len)); read_seg_count += received_buffer.len();`
then returns `received_buffer.as_ref()` — the WHOLE pool, which is not cleared
first, and the count is incremented by the whole pool's length. -/
def Window.shrink (w : Window) : List Segment × Window :=
  let rb := w.received_buffer ++ w.queue.take w.slide_len
  (rb,
   { queue := w.queue.drop w.slide_len,
     received_buffer := rb,
     read_seg_count := w.read_seg_count + rb.length })

/-- One pop of `Window::extend`'s `while let` loop, on the REVERSED pool
(`Vec::pop` takes from the back).  Returns the segments pushed to the queue
tail (in push order), the remaining reversed pool, and the iterator.  When the
iterator is exhausted the popped segment has already been removed and is
dropped (`window.rs` lines 46-56). -/
def Window.extendGo : List Segment → SegmentByteRangeIter →
    (List Segment × List Segment × SegmentByteRangeIter)
  | [], it => ([], [], it)
  | _s :: rest, it =>
    match it.next with
    | none => ([], rest, it)
    | some (r, it') =>
      let (pushed, rem, it'') := Window.extendGo rest it'
      (Segment.with_buffer r SegmentBuffer.default :: pushed, rem, it'')

/-- `Window::extend`: recycle pool buffers into fresh tail segments, one range
per pop, stopping (and dropping the popped segment) when the iterator runs dry.
The recycled buffer is `clear()`ed before reuse, modelled as a zeroed buffer. -/
def Window.extend (w : Window) (it : SegmentByteRangeIter) :
    Window × SegmentByteRangeIter :=
  let (pushed, remRev, it') := Window.extendGo w.received_buffer.reverse it
  ({ w with queue := w.queue ++ pushed, received_buffer := remRev.reverse }, it')

/-- `Window::contains` (`window.rs` lines 59-62). -/
def Window.contains (w : Window) (r : ByteRange) : Bool :=
  decide (w.read_seg_count * Segment.SIZE ≤ r.start) &&
    decide (r.start < (w.read_seg_count + w.queue.length) * Segment.SIZE)

/-- The slot index computed by `impl Index/IndexMut<&ByteRange> for Window`
(`window.rs` lines 104-118): `start / Segment::SIZE - read_seg_count`. -/
def Window.indexOf (w : Window) (r : ByteRange) : Nat :=
  r.start / Segment.SIZE - w.read_seg_count

/-- `Window::unacknowledged_segments`: queue segments that are not received. -/
def Window.unacknowledged_segments (w : Window) : List Segment :=
  w.queue.filter (fun s => !s.is_received)

/-! ## Message codec (`messages.rs`)

`Response::new` receives the raw 519-byte receive buffer.  Its header is
checked with `str::from_utf8` and split with `str::split_whitespace`, so the
embedding decodes UTF-8 to code points and splits on Unicode whitespace.
Numeric overflow of `usize` parsing is not modelled (no claim depends on a
20-digit token). -/

/-- A UTF-8 continuation byte `10xxxxxx`. -/
def isCont (b : Nat) : Bool := decide (128 ≤ b) && decide (b < 192)

/-- `str::from_utf8`: strict UTF-8 validation and decoding to code points
(surrogates and overlong forms rejected); `none` models `Err(Utf8Error)`. -/
def utf8Decode : List Nat → Option (List Nat)
  | [] => some []
  | b :: rest =>
    if b < 128 then
      (utf8Decode rest).map (b :: ·)
    else if b < 194 then
      none
    else if b ≤ 223 then
      match rest with
      | b1 :: rest' =>
        if isCont b1 then
          (utf8Decode rest').map (((b - 192) * 64 + (b1 - 128)) :: ·)
        else none
      | [] => none
    else if b ≤ 239 then
      match rest with
      | b1 :: b2 :: rest' =>
        let lo := if b = 224 then 160 else 128
        let hi := if b = 237 then 159 else 191
        if decide (lo ≤ b1) && decide (b1 ≤ hi) && isCont b2 then
          (utf8Decode rest').map
            (((b - 224) * 4096 + (b1 - 128) * 64 + (b2 - 128)) :: ·)
        else none
      | _ => none
    else if b ≤ 244 then
      match rest with
      | b1 :: b2 :: b3 :: rest' =>
        let lo := if b = 240 then 144 else 128
        let hi := if b = 244 then 143 else 191
        if decide (lo ≤ b1) && decide (b1 ≤ hi) && isCont b2 && isCont b3 then
          (utf8Decode rest').map
            (((b - 240) * 262144 + (b1 - 128) * 4096 +
              (b2 - 128) * 64 + (b3 - 128)) :: ·)
        else none
      | _ => none
    else none

/-- `char::is_whitespace`: the Unicode `White_Space` code points. -/
def isWhitespaceChar (c : Nat) : Bool :=
  c ∈ [9, 10, 11, 12, 13, 32, 133, 160, 5760,
       8192, 8193, 8194, 8195, 8196, 8197, 8198, 8199, 8200, 8201, 8202,
       8232, 8233, 8239, 8287, 12288]

/-- Helper for `str::split_whitespace`: accumulates the current token
(reversed) and emits tokens at whitespace boundaries, dropping empties. -/
def splitWsGo : List Nat → List Nat → List (List Nat)
  | [], acc => if acc.isEmpty then [] else [acc.reverse]
  | c :: rest, acc =>
    if isWhitespaceChar c then
      if acc.isEmpty then splitWsGo rest [] else acc.reverse :: splitWsGo rest []
    else
      splitWsGo rest (c :: acc)

/-- `str::split_whitespace` over decoded code points. -/
def splitWhitespace (cs : List Nat) : List (List Nat) := splitWsGo cs []

/-- ASCII digits of a token, most significant first, to a `Nat`. -/
def digitsToNat : List Nat → Nat → Option Nat
  | [], acc => some acc
  | c :: rest, acc =>
    if decide (48 ≤ c) && decide (c ≤ 57) then
      digitsToNat rest (acc * 10 + (c - 48))
    else none

/-- `<usize as FromStr>::parse`: optional leading `+`, then one or more
decimal digits (leading zeros allowed). -/
def parseUsize (cs : List Nat) : Option Nat :=
  match cs with
  | [] => none
  | 43 :: rest => if rest.isEmpty then none else digitsToNat rest 0
  | _ => digitsToNat cs 0

/-- The ways `Response::new` aborts the process: each `or_fail_with_message`
calls `process::exit(1)`; `assertFailed` is the `assert!(length <= 500)`
panic; `sliceOutOfBounds` is the panic of `&other[1..length + 1]` when the
buffer is too short. -/
inductive DecodeError where
  | noNewline
  | headerNotUtf8
  | startMissing
  | startNotNumber
  | lengthMissing
  | lengthNotNumber
  | assertFailed
  | sliceOutOfBounds
deriving DecidableEq, Repr

/-- The decoded `Response` (`messages.rs`): the borrowed `message_bytes` and
`header` fields are projections of the input and are not repeated here. -/
structure Response where
  byte_range : ByteRange
  data : List Nat
deriving DecidableEq, Repr

namespace Response

/-- `messages.rs` constants: `MIN_HEADER_SIZE = 9`, `MAX_HEADER_SIZE = 19`,
`MAX_SIZE = 519`. -/
def MIN_HEADER_SIZE : Nat := 7 + 1 + 1

def MAX_HEADER_SIZE : Nat := 7 + 8 + 4

def DATA_SIZE : Nat := 500

def MAX_SIZE : Nat := DATA_SIZE + MAX_HEADER_SIZE

/-- `Response::is_message_size_valid`: `MIN_HEADER_SIZE <= size && size <= MAX_SIZE`. -/
def is_message_size_valid (size : Nat) : Bool :=
  decide (MIN_HEADER_SIZE ≤ size) && decide (size ≤ MAX_SIZE)

/-- `Response::new` (`messages.rs` lines 57-79), as a total function whose
`.error` results are the process-terminating exits/panics of the source:
find the first `\n`; the bytes before it are the header, validated as UTF-8
and split on whitespace; the second and third tokens parse as `usize`
`start` and `length`; `assert!(length <= 500)`; the payload is
`&other[1..length + 1]`, i.e. the `length` bytes that follow the newline in
the buffer, whatever the received datagram's size was. -/
def new (message_bytes : List Nat) : Except DecodeError Response :=
  match message_bytes.findIdx? (· == 10) with
  | none => .error .noNewline
  | some newline_index =>
    let header_bytes := message_bytes.take newline_index
    let other := message_bytes.drop newline_index
    match utf8Decode header_bytes with
    | none => .error .headerNotUtf8
    | some header =>
      let words := splitWhitespace header
      match words.get? 1 with
      | none => .error .startMissing
      | some startTok =>
        match parseUsize startTok with
        | none => .error .startNotNumber
        | some start =>
          match words.get? 2 with
          | none => .error .lengthMissing
          | some lenTok =>
            match parseUsize lenTok with
            | none => .error .lengthNotNumber
            | some length =>
              if 500 < length then .error .assertFailed
              else if other.length < length + 1 then .error .sliceOutOfBounds
              else .ok { byte_range := ⟨start, start + length⟩,
                         data := (other.drop 1).take length }

end Response

/-! ## Downloader (`downloader.rs`)

The socket is external: a drain iteration's `recv_from` results are given as
a script of `RecvEvent`s, and each outer-loop wait is given as a
`WaitOutcome`.  Real time is not modelled; the `sleep_time` reported to the
`Events` arm is part of the script. -/

/-- `std::net::SocketAddrV4` (only equality with the configured server
address matters). -/
structure SocketAddrV4 where
  ip : Nat
  port : Nat
deriving DecidableEq, Repr

/-- One `recv_from` result inside `store_segments`' loop: a datagram (with
its sender, `none` for a non-IPv4 address, and its raw bytes), a
`WouldBlock` (ends the drain), or another socket error (fatal). -/
inductive RecvEvent where
  | datagram (sender : Option SocketAddrV4) (content : List Nat)
  | wouldBlock
  | recvErr
deriving DecidableEq, Repr

/-- Process-terminating outcomes of the drain loop: `fail_with_message` on a
decode failure or socket error, a panic on out-of-bounds indexing. -/
inductive FatalKind where
  | decodeFailure (e : DecodeError)
  | indexOutOfBounds
  | socketError
deriving DecidableEq, Repr

/-- `recv_from(message_buffer)` copies the datagram into the buffer's prefix,
leaving the previous tail bytes in place (the buffer is reused across
iterations). -/
def writeBuf (buf content : List Nat) : List Nat :=
  content.take buf.length ++ buf.drop (min content.length buf.length)

/-- The byte count `recv_from` reports: the datagram size truncated to the
buffer size (excess bytes of an oversized datagram are discarded). -/
def recvSize (buf content : List Nat) : Nat := min content.length buf.length

/-- The guard of `store_segments`' accepting match arm
(`downloader.rs` line 149): the sender is an IPv4 address equal to the
configured server and `Response::is_message_size_valid(message_size)`. -/
def acceptGuard (server : SocketAddrV4) (sender : Option SocketAddrV4)
    (size : Nat) : Bool :=
  match sender with
  | some v4 => v4 == server && Response.is_message_size_valid size
  | none => false

/-- One datagram of `Downloader::store_segments` (`downloader.rs` lines
146-166): receive into the reused buffer; datagrams failing the sender/size
guard fall to `Ok(_) => continue`; otherwise `Response::new` decodes the
WHOLE buffer (terminating the process on failure); out-of-window responses
and responses for already-received slots are ignored; otherwise the indexed
slot gets the payload and becomes received. -/
def processDatagram (server : SocketAddrV4) (w : Window) (buf : List Nat)
    (sender : Option SocketAddrV4) (content : List Nat) :
    Except FatalKind (Window × List Nat) :=
  if acceptGuard server sender (recvSize buf content) then
    match Response.new (writeBuf buf content) with
    | .error e => .error (.decodeFailure e)
    | .ok resp =>
      if w.contains resp.byte_range then
        match w.queue.get? (w.indexOf resp.byte_range) with
        | none => .error .indexOutOfBounds
        | some seg =>
          if seg.is_received then .ok (w, writeBuf buf content)
          else
            .ok ({ w with
                   queue := w.queue.set (w.indexOf resp.byte_range)
                     (seg.write_all resp.data) }, writeBuf buf content)
      else .ok (w, writeBuf buf content)
  else .ok (w, writeBuf buf content)

/-- `Downloader::store_segments`: drain the non-blocking socket until
`WouldBlock` (or the script runs out); any other recv error is fatal. -/
def store_segments (server : SocketAddrV4) :
    Window → List Nat → List RecvEvent → Except FatalKind (Window × List Nat)
  | w, buf, [] => .ok (w, buf)
  | w, buf, .wouldBlock :: _ => .ok (w, buf)
  | _, _, .recvErr :: _ => .error .socketError
  | w, buf, .datagram sender content :: rest =>
    match processDatagram server w buf sender content with
    | .error e => .error e
    | .ok (w', buf') => store_segments server w' buf' rest

/-- The downloader's configuration: server address and declared file size. -/
structure Config where
  server : SocketAddrV4
  file_size : Nat
deriving DecidableEq, Repr

/-- The mutable state of `Downloader::download`: the window, the range
iterator, `bytes_downloaded`, the running retransmission `timeout` (ms), the
reused 519-byte receive buffer, and the chunks appended to the output file so
far (each entry one `write_all(segment.as_ref())`). -/
structure DState where
  window : Window
  iter : SegmentByteRangeIter
  bytes_downloaded : Nat
  timeout : Nat
  buffer : List Nat
  writes : List Segment
deriving DecidableEq, Repr

/-- `Downloader::TIMEOUT = 1000 ms`. -/
def TIMEOUT_MS : Nat := 1000

/-- `Downloader::new` + the locals of `download`: window seeded from
`SegmentByteRangeIter::new(file_size, 500)`, `bytes_downloaded = 0`,
`timeout = TIMEOUT`, `response_buffer = vec![0; Response::MAX_SIZE]`. -/
def DState.init (cfg : Config) : DState :=
  let (w, it) := Window.new (SegmentByteRangeIter.new cfg.file_size Segment.SIZE)
  { window := w, iter := it, bytes_downloaded := 0, timeout := TIMEOUT_MS,
    buffer := List.replicate Response.MAX_SIZE 0, writes := [] }

/-- The outcome of one wait phase, as seen by `Downloader::download` through
`await_socket_read_ready`: a timeout, or readiness with the reported sleep
time and the datagrams the subsequent drain will receive. -/
inductive WaitOutcome where
  | timeout
  | readReady (sleep_ms : Nat) (events : List RecvEvent)
deriving DecidableEq, Repr

/-- One iteration of `Downloader::download`'s outer loop (`downloader.rs`
lines 174-194), after the send phase (which transmits a request per
unacknowledged segment and mutates no downloader state):
on `Timeout`, reset the deadline, `shrink`, append each returned segment
(`write_all(segment.as_ref())`) and add `segment.len()` to
`bytes_downloaded`; on `ReadReady`, subtract the sleep time (saturating) and
drain; in BOTH branches finally `window.extend(segment_byte_ranges)`. -/
def downloadStep (cfg : Config) (s : DState) (ev : WaitOutcome) :
    Except FatalKind DState :=
  match ev with
  | .timeout =>
    let (segs, w1) := s.window.shrink
    let (w2, it') := w1.extend s.iter
    .ok { window := w2, iter := it',
          bytes_downloaded := s.bytes_downloaded + (segs.map Segment.len).sum,
          timeout := TIMEOUT_MS,
          buffer := s.buffer,
          writes := s.writes ++ segs }
  | .readReady sleep_ms events =>
    match store_segments cfg.server s.window s.buffer events with
    | .error e => .error e
    | .ok (w1, buf') =>
      let (w2, it') := w1.extend s.iter
      .ok { window := w2, iter := it',
            bytes_downloaded := s.bytes_downloaded,
            timeout := s.timeout - sleep_ms,
            buffer := buf',
            writes := s.writes }

/-- `Downloader::download`'s `while bytes_downloaded < file_size` loop, run
against a finite script of wait outcomes (the state is returned as-is if the
script ends first). -/
def downloadRun (cfg : Config) : DState → List WaitOutcome →
    Except FatalKind DState
  | s, [] => .ok s
  | s, ev :: rest =>
    if s.bytes_downloaded < cfg.file_size then
      match downloadStep cfg s ev with
      | .error e => .error e
      | .ok s' => downloadRun cfg s' rest
    else .ok s

/-! ## Readiness registry (`registry.rs`)

`Registry::await_events` clears the scratch `events` vector and passes
`self.events.len()` — now zero — as `epoll_wait`'s `maxevents`, so the
kernel can hand back at most zero events (with `maxevents = 0` Linux in fact
fails with `EINVAL`, which `fail_with_message`s; granting the syscall
success only strengthens the result below).  The kernel is abstracted by
`readyCount`, the number of ready registered interests it would report;
`epoll_wait` returns at most `min readyCount maxevents` of them. -/

/-- `libc::epoll_event`. -/
structure EpollEvent where
  events : Nat
  u64 : Nat
deriving DecidableEq, Repr

/-- `registry.rs`: `Registry { epoll_fd, events, instances, timeout }`
(`instances` maps fds to registered interests; unused by `await_events`). -/
structure Registry where
  epoll_fd : Nat
  events : List EpollEvent
  instances : List (Nat × List EpollEvent)
  timeout_ms : Nat
deriving DecidableEq, Repr

/-- `registry.rs`: `Notification` — `Timeout`, or `Events` carrying the
harvested slice (and nothing else: no elapsed duration field). -/
inductive RegNotification where
  | timeout
  | events (harvested : List EpollEvent)
deriving DecidableEq, Repr

/-- `Registry::await_events` (`registry.rs` lines 94-115): clear the scratch
vector, call `epoll_wait` with `maxevents = events.len()` (zero after the
clear) and the registry's fixed `timeout`, `set_len` the vector to the
result, and return `Timeout` iff no events were harvested. -/
def Registry.await_events (_r : Registry) (readyCount : Nat) : RegNotification :=
  let cleared : List EpollEvent := []
  let maxevents := cleared.length
  let res := min readyCount maxevents
  let harvested := cleared.take res
  if harvested.length = 0 then .timeout else .events harvested

/-! ## Concrete inputs used by the theorems below

ASCII literals: `"DATA 0 500\n" = [68,65,84,65,32,48,32,53,48,48,10]`, etc.;
`97, 98, 120, 121` are `a`, `b`, `x`, `y`. -/

def srvAddr : SocketAddrV4 := ⟨10, 5000⟩

def zeroBuf : List Nat := List.replicate 519 0

/-- A well-formed response datagram for segment `[0, 500)`: `"DATA 0 500\n"`
followed by 500 payload bytes `a`. -/
def dgSeg0 : List Nat :=
  [68, 65, 84, 65, 32, 48, 32, 53, 48, 48, 10] ++ List.replicate 500 97

/-- A well-formed response datagram for segment `[500, 1000)`:
`"DATA 500 500\n"` followed by 500 payload bytes `b`. -/
def dgSeg1 : List Nat :=
  [68, 65, 84, 65, 32, 53, 48, 48, 32, 53, 48, 48, 10] ++ List.replicate 500 98

/-- A malformed datagram of valid size: `"DATA a 500\n"` (non-numeric start). -/
def malDg : List Nat := [68, 65, 84, 65, 32, 97, 32, 53, 48, 48, 10]

def cfg500ex : Config := ⟨srvAddr, 500⟩

def cfg1500ex : Config := ⟨srvAddr, 1500⟩

def w1000ex : Window := (Window.new (SegmentByteRangeIter.new 1000 500)).1

def w1500ex : Window := (Window.new (SegmentByteRangeIter.new 1500 500)).1

/-- Wait script: a drain delivering segment `[0, 500)`, then a timeout. -/
def traceC1 : List WaitOutcome :=
  [.readReady 0 [.datagram (some srvAddr) dgSeg0, .wouldBlock], .timeout]

/-- Wait script: a drain delivering segments `[0, 500)` and `[500, 1000)`,
then two consecutive timeouts. -/
def traceDoubleWrite : List WaitOutcome :=
  [.readReady 0 [.datagram (some srvAddr) dgSeg0,
                 .datagram (some srvAddr) dgSeg1, .wouldBlock],
   .timeout, .timeout]

/-- A received segment `[0, 500)` sitting in a window's recycle pool. -/
def c4segA : Segment := ⟨⟨0, 500⟩, SegmentBuffer.default, .acknowledged⟩

/-- A received segment `[500, 1000)` at a window's queue head. -/
def c4segB : Segment := ⟨⟨500, 1000⟩, SegmentBuffer.default, .acknowledged⟩

/-- A window whose recycle pool is not empty when `shrink` is called. -/
def c4w : Window := ⟨[c4segB], [c4segA], 1⟩

/-- A window state for the `shrink` contract at an empty recycle pool. -/
def c4wEmptyPool : Window := ⟨[c4segB, Segment.new ⟨1000, 1500⟩], [], 1⟩

/-- A datagram whose header declares `length = 0`: `"DATA 0 0\n"` padded to
the 519-byte buffer. -/
def c6zeroBuf : List Nat := [68, 65, 84, 65, 32, 48, 32, 48, 10] ++ List.replicate 510 0

/-- A 12-byte datagram declaring `length = 200`: `"DATA 0 200\n"` + one `A`. -/
def c6mixDg : List Nat := [68, 65, 84, 65, 32, 48, 32, 50, 48, 48, 10, 65]

/-- The receive buffer after `c6mixDg` lands on a buffer full of `7`s. -/
def c6mixBuf : List Nat := writeBuf (List.replicate 519 7) c6mixDg

/-- An in-window response whose range `[0, 300)` does not match the addressed
slot's range `[0, 500)`: `"DATA 0 300\n"` + 300 payload bytes `b`. -/
def c7dg : List Nat :=
  [68, 65, 84, 65, 32, 48, 32, 51, 48, 48, 10] ++ List.replicate 300 98

/-- A maximum-size (519-byte) datagram: `dgSeg0` plus 8 trailing `y` bytes. -/
def c10big : List Nat := dgSeg0 ++ List.replicate 8 121

/-- An 11-byte datagram `"DATA 0 5\nxy"`: declares 5 payload bytes but
carries only 2. -/
def c10small : List Nat := [68, 65, 84, 65, 32, 48, 32, 53, 10, 120, 121]

def c10bufAfterBig : List Nat := writeBuf zeroBuf c10big

def c10bufAfterSmall : List Nat := writeBuf c10bufAfterBig c10small

/-! ## Helper lemmas -/

/-- Taking `(l.takeWhile p).length` elements of `l` yields exactly the
`takeWhile` prefix. -/
theorem take_takeWhile_length {α : Type} (p : α → Bool) (l : List α) :
    l.take (l.takeWhile p).length = l.takeWhile p := by
  induction l with
  | nil => simp
  | cons a l ih =>
    by_cases h : p a
    · simp [List.takeWhile_cons, h, ih]
    · simp [List.takeWhile_cons, h]

/-- `recv_from` never changes the receive buffer's length. -/
theorem writeBuf_length (buf content : List Nat) :
    (writeBuf buf content).length = buf.length := by
  simp [writeBuf]
  omega

/-- Receiving the same datagram into the buffer twice equals receiving it
once. -/
theorem writeBuf_writeBuf (buf content : List Nat) :
    writeBuf (writeBuf buf content) content = writeBuf buf content := by
  show content.take (writeBuf buf content).length ++
      (writeBuf buf content).drop (min content.length (writeBuf buf content).length) =
    writeBuf buf content
  rw [writeBuf_length]
  show content.take buf.length ++
      (content.take buf.length ++
        buf.drop (min content.length buf.length)).drop (min content.length buf.length) =
    writeBuf buf content
  have hlen : (content.take buf.length).length = min content.length buf.length := by
    simp [Nat.min_comm]
  rw [← hlen, List.drop_left, hlen, writeBuf]

/-- `Window::extend` touches only the queue and the recycle pool. -/
theorem extend_read_seg_count (w : Window) (it : SegmentByteRangeIter) :
    ((w.extend it).1).read_seg_count = w.read_seg_count := by
  simp [Window.extend]

/-- A successful `processDatagram` leaves `read_seg_count` and the queue
length unchanged and its returned buffer is the received one. -/
theorem processDatagram_ok (server : SocketAddrV4) (w : Window)
    (buf : List Nat) (sender : Option SocketAddrV4) (content : List Nat)
    (w' : Window) (b' : List Nat)
    (h : processDatagram server w buf sender content = .ok (w', b')) :
    w'.read_seg_count = w.read_seg_count ∧
      w'.queue.length = w.queue.length ∧ b' = writeBuf buf content := by
  unfold processDatagram at h
  split at h
  · split at h
    · exact absurd h (by simp)
    · split at h
      · split at h
        · exact absurd h (by simp)
        · split at h
          · simp only [Except.ok.injEq, Prod.mk.injEq] at h
            obtain ⟨hw, hb⟩ := h
            subst hw hb
            exact ⟨rfl, rfl, rfl⟩
          · simp only [Except.ok.injEq, Prod.mk.injEq] at h
            obtain ⟨hw, hb⟩ := h
            subst hw hb
            exact ⟨rfl, by simp, rfl⟩
      · simp only [Except.ok.injEq, Prod.mk.injEq] at h
        obtain ⟨hw, hb⟩ := h
        subst hw hb
        exact ⟨rfl, rfl, rfl⟩
  · simp only [Except.ok.injEq, Prod.mk.injEq] at h
    obtain ⟨hw, hb⟩ := h
    subst hw hb
    exact ⟨rfl, rfl, rfl⟩

/-- A successful drain leaves `read_seg_count` unchanged. -/
theorem store_segments_read_seg_count (server : SocketAddrV4) :
    ∀ (events : List RecvEvent) (w : Window) (buf : List Nat) (w' : Window)
      (b' : List Nat),
      store_segments server w buf events = .ok (w', b') →
      w'.read_seg_count = w.read_seg_count := by
  intro events
  induction events with
  | nil =>
    intro w buf w' b' h
    simp only [store_segments, Except.ok.injEq, Prod.mk.injEq] at h
    rw [← h.1]
  | cons ev rest ih =>
    intro w buf w' b' h
    cases ev with
    | wouldBlock =>
      simp only [store_segments, Except.ok.injEq, Prod.mk.injEq] at h
      rw [← h.1]
    | recvErr => exact absurd h (by simp [store_segments])
    | datagram sender content =>
      simp only [store_segments] at h
      split at h
      · exact absurd h (by simp)
      · rename_i w1 b1 heq
        have h1 := processDatagram_ok server w buf sender content w1 b1 heq
        rw [ih w1 b1 w' b' h, h1.1]

/-- `Window::contains` only reads `read_seg_count` and the queue length, so
overwriting one queue slot leaves it unchanged. -/
theorem contains_set (w : Window) (i : Nat) (x : Segment) (r : ByteRange) :
    Window.contains { w with queue := w.queue.set i x } r = w.contains r := by
  unfold Window.contains
  rw [List.length_set]

/-- The slot index only reads `read_seg_count`. -/
theorem indexOf_set (w : Window) (i : Nat) (x : Segment) (r : ByteRange) :
    Window.indexOf { w with queue := w.queue.set i x } r = w.indexOf r := rfl

theorem queue_set (w : Window) (i : Nat) (x : Segment) :
    ({ w with queue := w.queue.set i x } : Window).queue = w.queue.set i x := rfl

/-! ## Claims -/

/-- C1.  The claim says the slide-and-persist step appends exactly
`range.len` bytes of each returned segment's payload.  Evaluating the code on
a complete download of a 500-byte file (one drained response, then the
timeout that persists it): the single `write_all(segment.as_ref())` appends
the segment's whole fixed 519-byte backing buffer — `Segment`'s
`AsRef<[u8]>` impl returns `self.buffer.data`, the full `[u8; 519]` array —
while `bytes_downloaded` grows by `segment.len() = range.len = 500`. -/
theorem c1_writes_full_buffer_not_range_len :
    (downloadRun cfg500ex (DState.init cfg500ex) traceC1).map
      (fun s => (s.writes.map (fun sg => (Segment.as_ref sg).length),
                 s.writes.map Segment.len, s.bytes_downloaded)) =
    .ok ([519], [500], 500) := by rfl

/-- C2.  The claim says no byte of the file is ever written twice.  Running
the download loop on a 1500-byte file against the script: drain receiving
segments `[0,500)` and `[500,1000)`, then two timeouts.  The first timeout's
`shrink` persists both, but `extend` (iterator exhausted) pops and drops only
one pool segment, leaving `[0,500)` in the pool; the second timeout's
`shrink` returns the stale pool again, so segment `[0,500)`'s payload is
appended a second time, `bytes_downloaded` reaches 1500 and the loop exits
with `[1000,1500)` never written. -/
theorem c2_double_write_trace :
    (downloadRun cfg1500ex (DState.init cfg1500ex) traceDoubleWrite).map
      (fun s => (s.writes.map Segment.byte_range, s.bytes_downloaded)) =
    .ok ([⟨0, 500⟩, ⟨500, 1000⟩, ⟨0, 500⟩], 1500) := by rfl

/-- C8.  The claim says `queue[0].range.start = read_seg_count * 500` holds
at every point of the loop.  After the same three-step script as the
double-write trace, the loop's final state has `read_seg_count = 3` but the
queued segment starts at byte 1000, and `1000 ≠ 3 * 500`: the stale recycle
pool inflated `read_seg_count` past the persisted prefix. -/
theorem c8_window_invariant_violated :
    (downloadRun cfg1500ex (DState.init cfg1500ex) traceDoubleWrite).map
      (fun s => (s.window.read_seg_count,
                 s.window.queue.map Segment.byte_range)) =
      .ok (3, [⟨1000, 1500⟩]) ∧ (1000 : Nat) ≠ 3 * Segment.SIZE := ⟨by rfl, by decide⟩

/-- C3, counterexample.  The claim says a malformed datagram is silently
dropped and the drain continues.  A valid-size datagram from the configured
server whose start token is not numeric (`"DATA a 500\n"`) makes
`store_segments` terminate the process (`or_fail_with_message` calls
`process::exit(1)`) instead of continuing. -/
theorem c3_malformed_datagram_terminates :
    store_segments srvAddr w1500ex zeroBuf
      [.datagram (some srvAddr) malDg, .wouldBlock] =
    .error (.decodeFailure .startNotNumber) := by rfl

/-- C4, counterexample.  The claim says `shrink` increments the persisted
count by exactly the drained prefix length `k` and returns exactly those `k`
segments, for EVERY window state.  On a window whose recycle pool still holds
one segment, the drained prefix has length `k = slide_len = 1`, yet `shrink`
returns 2 segments and bumps `read_seg_count` from 1 to 3 (`+= 2`). -/
theorem c4_shrink_nonempty_pool_counterexample :
    (c4w.shrink.1.length = 2 ∧ c4w.slide_len = 1 ∧
     c4w.read_seg_count = 1 ∧ c4w.shrink.2.read_seg_count = 3) := by decide

/-- C5, counterexample.  The claim says slide-and-persist runs after every
drain.  After a drain that completes segment `[0,500)` (a newly contiguous
received prefix), the loop state still has no file writes and
`read_seg_count = 0`: the `ReadReady` arm only drains and extends; `shrink`
runs solely in the `Timeout` arm. -/
theorem c5_drain_does_not_persist_counterexample :
    (downloadRun cfg1500ex (DState.init cfg1500ex)
        [.readReady 0 [.datagram (some srvAddr) dgSeg0, .wouldBlock]]).map
      (fun s => (s.writes, s.window.queue.map Segment.is_received,
                 s.window.read_seg_count)) =
    .ok ([], [true, false, false], 0) := by rfl

/-- C6, counterexample.  The claim says decoding validates `1 ≤ length`.
The buffer `"DATA 0 0\n"…` declares `length = 0`, which `Response::new`
accepts (`.ok`, empty payload): the lower bound is never checked. -/
theorem c6_zero_length_accepted :
    Response.new c6zeroBuf = .ok ⟨⟨0, 0⟩, []⟩ := by rfl

/-- C7, counterexample.  The claim says a response mutates a slot only when
the slot's range exactly matches the response's range.  The response
`"DATA 0 300\n"…` (range `[0,300)`) addresses slot 0, whose range is
`[0,500)`; the code writes the payload and marks the slot received anyway —
no range comparison exists. -/
theorem c7_mismatched_range_mutates :
    (processDatagram srvAddr w1000ex zeroBuf (some srvAddr) c7dg).map
      (fun p => p.1.queue.map (fun sg => (sg.byte_range, sg.is_received))) =
    .ok [(⟨0, 500⟩, true), (⟨500, 1000⟩, false)] := by rfl

/-- C9.  The claim says `await_events` returns `Timeout` exactly when no
registered interest became ready within the timeout, and otherwise `Events`
with the harvested slice and the blocked time.  `Registry::await_events`
clears its scratch vector and passes the cleared vector's length — zero — as
`epoll_wait`'s `maxevents`, so however many interests are ready it harvests
nothing and returns `Timeout` on every call; the source's `Events` variant
carries no elapsed duration and the function takes no timeout argument. -/
theorem c9_await_events_never_events (r : Registry) (readyCount : Nat) :
    Registry.await_events r readyCount = .timeout := by
  simp [Registry.await_events]

/-- C4, amended.  PROVIDED the recycle pool is empty when `shrink` is
called, `shrink` moves exactly the longest `Received` prefix of the queue
(the `takeWhile` run, of length `k = slide_len`) from the queue head into
the pool, increments `read_seg_count` by exactly `k`, and returns exactly
those `k` segments. -/
theorem c4_shrink_empty_pool (w : Window) (h : w.received_buffer = []) :
    w.shrink.1 = w.queue.takeWhile Segment.is_received ∧
    w.shrink.2.queue = w.queue.drop (w.queue.takeWhile Segment.is_received).length ∧
    w.shrink.2.received_buffer = w.queue.takeWhile Segment.is_received ∧
    w.shrink.2.read_seg_count =
      w.read_seg_count + (w.queue.takeWhile Segment.is_received).length := by
  simp [Window.shrink, Window.slide_len, h, take_takeWhile_length]

/-- C4, witness: the empty-pool `shrink` contract evaluated on a concrete
window holding one received and one pending segment. -/
theorem c4_shrink_empty_pool_witness :
    c4wEmptyPool.received_buffer = [] ∧
    (c4wEmptyPool.shrink.1 = c4wEmptyPool.queue.takeWhile Segment.is_received ∧
     c4wEmptyPool.shrink.2.queue =
       c4wEmptyPool.queue.drop
         (c4wEmptyPool.queue.takeWhile Segment.is_received).length ∧
     c4wEmptyPool.shrink.2.received_buffer =
       c4wEmptyPool.queue.takeWhile Segment.is_received ∧
     c4wEmptyPool.shrink.2.read_seg_count =
       c4wEmptyPool.read_seg_count +
         (c4wEmptyPool.queue.takeWhile Segment.is_received).length) :=
  ⟨rfl, c4_shrink_empty_pool c4wEmptyPool rfl⟩

/-- C3, amended.  Datagrams rejected by the sender/size guard are silently
dropped — the drain continues on the remaining events with the window
untouched (only the reused receive buffer was overwritten) — while a
datagram that passes the guard but fails decoding terminates the process. -/
theorem c3_amended_rejected_dropped_decode_fatal :
    (∀ (server : SocketAddrV4) (w : Window) (buf : List Nat)
       (sender : Option SocketAddrV4) (content : List Nat)
       (rest : List RecvEvent),
       acceptGuard server sender (recvSize buf content) = false →
       store_segments server w buf (.datagram sender content :: rest) =
         store_segments server w (writeBuf buf content) rest) ∧
    (∀ (server : SocketAddrV4) (w : Window) (buf : List Nat)
       (sender : Option SocketAddrV4) (content : List Nat)
       (rest : List RecvEvent) (e : DecodeError),
       acceptGuard server sender (recvSize buf content) = true →
       Response.new (writeBuf buf content) = .error e →
       store_segments server w buf (.datagram sender content :: rest) =
         .error (.decodeFailure e)) := by
  constructor
  · intro server w buf sender content rest h
    simp [store_segments, processDatagram, h]
  · intro server w buf sender content rest e h hd
    simp [store_segments, processDatagram, h, hd]

/-- C3, witness: a non-IPv4-sender datagram is dropped (drain continues on
the tail with the window unchanged); a malformed datagram from the server
is fatal. -/
theorem c3_amended_witness :
    (store_segments srvAddr w1500ex zeroBuf
        [.datagram none dgSeg0, .wouldBlock] =
      store_segments srvAddr w1500ex (writeBuf zeroBuf dgSeg0) [.wouldBlock]) ∧
    store_segments srvAddr w1000ex zeroBuf [.datagram (some srvAddr) malDg] =
      .error (.decodeFailure .startNotNumber) :=
  ⟨c3_amended_rejected_dropped_decode_fatal.1 srvAddr w1500ex zeroBuf none
      dgSeg0 [.wouldBlock] rfl,
   c3_amended_rejected_dropped_decode_fatal.2 srvAddr w1000ex zeroBuf
      (some srvAddr) malDg [] .startNotNumber (by rfl) (by rfl)⟩

/-- C5, amended.  After a drain (the `Events` outcome), the downloader does
NOT execute slide-and-persist: the `ReadReady` arm leaves the file writes,
`bytes_downloaded` and `read_seg_count` unchanged (only `extend` runs);
persisting happens solely in the `Timeout` arm. -/
theorem c5_amended_no_persist_on_drain (cfg : Config) (s : DState)
    (sleep_ms : Nat) (events : List RecvEvent) (w' : Window) (buf' : List Nat)
    (h : store_segments cfg.server s.window s.buffer events = .ok (w', buf')) :
    (downloadStep cfg s (.readReady sleep_ms events)).map
      (fun s' => (s'.writes, s'.bytes_downloaded, s'.window.read_seg_count)) =
    .ok (s.writes, s.bytes_downloaded, s.window.read_seg_count) := by
  simp [downloadStep, h, Except.map, extend_read_seg_count,
        store_segments_read_seg_count cfg.server events s.window s.buffer w'
          buf' h]

/-- C5, witness: an empty drain on the freshly initialised 1500-byte
download leaves writes, byte count and persisted count unchanged. -/
theorem c5_amended_witness :
    (downloadStep cfg1500ex (DState.init cfg1500ex)
        (.readReady 0 [.wouldBlock])).map
      (fun s' => (s'.writes, s'.bytes_downloaded, s'.window.read_seg_count)) =
    .ok ((DState.init cfg1500ex).writes,
         (DState.init cfg1500ex).bytes_downloaded,
         (DState.init cfg1500ex).window.read_seg_count) :=
  c5_amended_no_persist_on_drain cfg1500ex (DState.init cfg1500ex) 0
    [.wouldBlock] (DState.init cfg1500ex).window
    (DState.init cfg1500ex).buffer (by rfl)

/-- C6, amended.  Decoding enforces only `length ≤ 500` (an assertion whose
violation panics rather than classifying the datagram invalid) and the
availability of `length` bytes after the newline in the reused 519-byte
buffer: every successfully decoded response satisfies `range.len ≤ 500` with
a payload of exactly `range.len` buffer bytes, but neither `1 ≤ length` nor
"the remainder of the datagram is exactly `length` bytes" is checked — a
12-byte datagram declaring `length = 200` passes the separate size gate and
decodes, its payload mostly stale buffer bytes. -/
theorem c6_amended_decode_validation :
    (∀ (msg : List Nat) (r : Response), Response.new msg = .ok r →
       r.byte_range.len ≤ 500 ∧ r.data.length = r.byte_range.len) ∧
    (Response.is_message_size_valid c6mixDg.length = true ∧
     Response.new c6mixBuf = .ok ⟨⟨0, 200⟩, 65 :: List.replicate 199 7⟩) := by
  refine ⟨?_, by rfl, by rfl⟩
  intro msg r h
  simp only [Response.new] at h
  split at h
  · simp at h
  · rename_i newline_index hfind
    split at h
    · simp at h
    · rename_i header hutf
      split at h
      · simp at h
      · rename_i startTok hw1
        split at h
        · simp at h
        · rename_i start hparse1
          split at h
          · simp at h
          · rename_i lenTok hw2
            split at h
            · simp at h
            · rename_i length hparse2
              split at h
              · simp at h
              · rename_i hassert
                split at h
                · simp at h
                · rename_i hslice
                  simp only [Except.ok.injEq] at h
                  subst h
                  simp only [List.length_drop] at hslice
                  refine ⟨by simp [ByteRange.len]; omega, ?_⟩
                  simp only [ByteRange.len, List.length_take,
                             List.length_drop]
                  omega

/-- C6, witness: the decode-success guarantees applied to the short datagram
that declares 200 payload bytes. -/
theorem c6_amended_witness :
    (⟨⟨0, 200⟩, 65 :: List.replicate 199 7⟩ : Response).byte_range.len ≤ 500 ∧
    (⟨⟨0, 200⟩, 65 :: List.replicate 199 7⟩ : Response).data.length =
      (⟨⟨0, 200⟩, 65 :: List.replicate 199 7⟩ : Response).byte_range.len :=
  c6_amended_decode_validation.1 c6mixBuf
    ⟨⟨0, 200⟩, 65 :: List.replicate 199 7⟩ (by rfl)

/-- C7, amended.  A response mutates the slot addressed by
`start / 500 - read_seg_count` whenever it is in-window and the slot is
`NotReceived`; the slot's own range is never compared with the response's.
What does hold: processing the same datagram a second time is a no-op — a
successfully processed datagram, redelivered against the resulting window
and buffer, returns exactly the same window and buffer (the slot, once
received, is skipped), so duplicates leave the window and hence the output
file unchanged. -/
theorem c7_amended_second_delivery_noop (server : SocketAddrV4) (w : Window)
    (buf : List Nat) (sender : Option SocketAddrV4) (content : List Nat)
    (w1 : Window) (b1 : List Nat)
    (h : processDatagram server w buf sender content = .ok (w1, b1)) :
    processDatagram server w1 b1 sender content = .ok (w1, b1) := by
  have hb : b1 = writeBuf buf content :=
    (processDatagram_ok server w buf sender content w1 b1 h).2.2
  have hwb : writeBuf b1 content = b1 := by rw [hb, writeBuf_writeBuf]
  have hsize : recvSize b1 content = recvSize buf content := by
    simp [recvSize, hb, writeBuf_length]
  unfold processDatagram at h ⊢
  rw [hsize, hwb]
  rw [← hb] at h
  split at h <;> rename_i hg
  · split at h <;> rename_i heq
    · exact absurd h (by simp)
    · rename_i resp
      split at h <;> rename_i hcont
      · split at h <;> rename_i hget
        · exact absurd h (by simp)
        · rename_i seg
          split at h <;> rename_i hrecv
          · simp only [Except.ok.injEq, Prod.mk.injEq] at h
            obtain ⟨hw1, -⟩ := h
            subst hw1
            rw [if_pos hg, if_pos hcont]
            simp only [hget]
            rw [if_pos hrecv]
          · simp only [Except.ok.injEq, Prod.mk.injEq] at h
            obtain ⟨hw1, -⟩ := h
            have hlt : w.indexOf resp.byte_range < w.queue.length := by
              obtain ⟨hl, -⟩ := List.get?_eq_some.mp hget
              exact hl
            subst hw1
            rw [if_pos hg]
            rw [contains_set, if_pos hcont, indexOf_set]
            rw [List.get?_set_eq_of_lt _ hlt]
            simp [Segment.write_all, Segment.is_received]
      · simp only [Except.ok.injEq, Prod.mk.injEq] at h
        obtain ⟨hw1, -⟩ := h
        subst hw1
        rw [if_pos hg, if_neg hcont]
  · simp only [Except.ok.injEq, Prod.mk.injEq] at h
    obtain ⟨hw1, -⟩ := h
    subst hw1
    rw [if_neg hg]

/-- The window/buffer state after the first delivery of the mismatched-range
datagram (used to exercise redelivery). -/
def c7first : Window × List Nat :=
  match processDatagram srvAddr w1000ex zeroBuf (some srvAddr) c7dg with
  | .ok p => p
  | .error _ => (w1000ex, zeroBuf)

/-- C7, witness: redelivering the concrete datagram against the state left
by its first delivery returns that state unchanged. -/
theorem c7_amended_witness :
    processDatagram srvAddr c7first.1 c7first.2 (some srvAddr) c7dg =
      .ok (c7first.1, c7first.2) :=
  c7_amended_second_delivery_noop srvAddr w1000ex zeroBuf (some srvAddr) c7dg
    c7first.1 c7first.2 (by rfl)

/-- C10.  Response decoding is a function of the reused receive buffer's
contents alone: whenever two drain iterations leave identical buffer
contents (and both received sizes pass the size gate), `processDatagram`
produces identical results even though the received sizes differ, because
`Response::new` is handed the whole buffer and never consults the size
reported by `recv_from`; concretely, after the 11-byte datagram
`"DATA 0 5\nxy"` lands over the buffer left by a full 519-byte datagram,
the decoded payload is `xy` followed by three stale bytes of the earlier
datagram. -/
theorem c10_decode_function_of_buffer :
    (∀ (server : SocketAddrV4) (w : Window) (buf1 buf2 c1 c2 : List Nat),
       writeBuf buf1 c1 = writeBuf buf2 c2 →
       Response.is_message_size_valid (recvSize buf1 c1) = true →
       Response.is_message_size_valid (recvSize buf2 c2) = true →
       processDatagram server w buf1 (some server) c1 =
         processDatagram server w buf2 (some server) c2) ∧
    (Response.new c10bufAfterSmall =
       .ok ⟨⟨0, 5⟩, [120, 121, 97, 97, 97]⟩ ∧
     recvSize c10bufAfterBig c10small = 11 ∧
     recvSize zeroBuf c10big = 519) := by
  refine ⟨?_, by rfl, by rfl, by rfl⟩
  intro server w buf1 buf2 c1 c2 heq h1 h2
  have hg1 : acceptGuard server (some server) (recvSize buf1 c1) = true := by
    simp [acceptGuard, h1]
  have hg2 : acceptGuard server (some server) (recvSize buf2 c2) = true := by
    simp [acceptGuard, h2]
  unfold processDatagram
  rw [hg1, hg2, heq]

/-- C10, witness: an 11-byte datagram over the stale buffer and a 519-byte
datagram over the zeroed buffer leave identical contents, and the two drain
iterations produce identical results although the received sizes are 11 and
519. -/
theorem c10_witness :
    processDatagram srvAddr w1000ex c10bufAfterBig (some srvAddr) c10small =
      processDatagram srvAddr w1000ex zeroBuf (some srvAddr) c10bufAfterSmall :=
  c10_decode_function_of_buffer.1 srvAddr w1000ex c10bufAfterBig zeroBuf
    c10small c10bufAfterSmall (by decide) (by rfl) (by rfl)

end Transport
